import Mathlib

/-!
Shallow embedding of the session-file write-arbitration logic of the
cc-sdk-chat repository, and theorems checking the specification claims
against it.  The embedded functions follow, definition by definition:

* `src/api/session_interceptor.py`   (SessionInterceptor.is_terminal_session)
* `src/api/isolated_session_manager.py`
  (IsolatedSessionManager._is_unification_attempt, write_message,
  monitor_unification_attempts)
* `src/api/session_manager.py`
  (SessionManager.read_session, write_message, clean_unified_messages)
* `src/api/core/monitor_manager.py`  (MonitorManager.restart)
* `src/api/core/jsonl_monitor.py`    (JSONLMonitor.get_latest_messages)

Dictionaries of message records are modelled by a structure holding the
four fields the arbitration heuristics inspect; a Python dict lookup
`msg.get(k)` is an `Option String`, with `none` for an absent key, and
Python truthiness of such a value is `pyTruthy`.  Raised exceptions are
modelled by `Except Unit`, with `Except.error ()` standing for an
exception propagating to the caller.
-/

/-- Python truthiness of `msg.get(field)`: `None` is falsy, a string is
truthy exactly when it is non-empty. -/
def pyTruthy : Option String → Bool
  | none => false
  | some s => !s.isEmpty

/-- Models `str(v)` for `v = msg.get(field, "")`: the string itself when
the field is present, the default empty string otherwise. -/
def pyStrD (o : Option String) : String := o.getD ""

/-- Models the Python substring test `pat in hay` for a non-empty
pattern: `splitOn` produces at least two pieces exactly when the pattern
occurs in the string. -/
def strContains (hay pat : String) : Bool := 2 ≤ (hay.splitOn pat).length

/-- A message record, restricted to the four provenance fields the
arbitration heuristics inspect (`originalSession`, `unified_at`,
`source`, `sessionId`).  `none` models an absent key. -/
structure Msg where
  originalSession : Option String
  unified_at : Option String
  source : Option String
  sessionId : Option String
deriving DecidableEq, Repr

/-- The protected web session id, `SessionInterceptor.UNIFIED_WEB_ID`. -/
def UNIFIED_WEB_ID : String := "00000000-0000-0000-0000-000000000001"

/-- Embeds `SessionInterceptor.is_terminal_session`
(`src/api/session_interceptor.py`, lines 28 to 40): a record is a
terminal record when `originalSession` is truthy, or `source` equals
`"claude_code_auto"`, or `unified_at` is truthy, or `sessionId` is
truthy and differs from the protected web id. -/
def is_terminal_session (m : Msg) : Bool :=
  if pyTruthy m.originalSession then true
  else if m.source == some "claude_code_auto" then true
  else if pyTruthy m.unified_at then true
  else if pyTruthy m.sessionId && !(m.sessionId == some UNIFIED_WEB_ID) then true
  else false

/-- Embeds `IsolatedSessionManager._is_unification_attempt`
(`src/api/isolated_session_manager.py`, lines 138 to 145).  The Python
code builds the list
`["originalSession", "unified_at", "source" in message and "claude_code_auto" in str(message.get("source", ""))]`
and returns `any(...)` over it.  The first two list elements are the
field-name string literals themselves, not dictionary lookups, so the
embedding takes their truthiness as written. -/
def is_unification_attempt (m : Msg) : Bool :=
  let markers : List Bool :=
    [ !("originalSession".isEmpty),
      !("unified_at".isEmpty),
      m.source.isSome && strContains (pyStrD m.source) "claude_code_auto" ]
  markers.any id

/-- Embeds the test `msg.get("originalSession") or msg.get("unified_at")`
used by `SessionManager.read_session`, `write_message` and
`clean_unified_messages` (`src/api/session_manager.py`). -/
def has_unified_marker (m : Msg) : Bool :=
  pyTruthy m.originalSession || pyTruthy m.unified_at

/-- A record with none of the four heuristic markers. -/
def empty_msg : Msg := ⟨none, none, none, none⟩

/-- One line of a JSONL session file, as the readers see it: whitespace
only (`line.strip()` is empty), non-blank but failing `json.loads`, or a
successfully parsed record. -/
inductive PLine where
  | blank : PLine
  | invalid : String → PLine
  | valid : Msg → PLine
deriving DecidableEq, Repr

/-- True on lines that parse as JSON records. -/
def valid_line : PLine → Bool
  | .valid _ => true
  | _ => false

/-- The parsed records of the valid lines of a file, in file order. -/
def line_msgs : List PLine → List Msg
  | [] => []
  | .valid m :: ls => m :: line_msgs ls
  | .blank :: ls => line_msgs ls
  | .invalid _ :: ls => line_msgs ls

/-- Embeds the per-line loop of `SessionManager.read_session`
(`src/api/session_manager.py`, lines 93 to 107): blank lines are
skipped, lines failing JSON decode are skipped by the inner except, and
for a protected session records carrying a truthy `originalSession` or
`unified_at` are filtered out. -/
def read_lines (isProt : Bool) : List PLine → List Msg
  | [] => []
  | .blank :: ls => read_lines isProt ls
  | .invalid _ :: ls => read_lines isProt ls
  | .valid m :: ls =>
    if isProt && has_unified_marker m then read_lines isProt ls
    else m :: read_lines isProt ls

/-- The lines `SessionManager.clean_unified_messages` keeps in
`clean_messages`: blank lines are never appended, undecodable lines are
appended verbatim by the except branch, decoded records are appended
unless they carry a truthy unification marker. -/
def keep_line : PLine → Bool
  | .blank => false
  | .invalid _ => true
  | .valid m => !has_unified_marker m

/-- The lines `SessionManager.clean_unified_messages` counts in
`removed_count`: decoded records carrying a truthy unification marker. -/
def removed_line : PLine → Bool
  | .valid m => has_unified_marker m
  | _ => false

/-- Embeds `SessionManager.clean_unified_messages`
(`src/api/session_manager.py`, lines 245 to 285) on an existing session
file, returning the pair of the returned `removed_count` and the lines
of the file after the call.  A non-protected session returns 0 at once;
the file is rewritten with the kept lines only when `removed_count` is
positive, and is left untouched otherwise. -/
def clean_unified_messages (isProt : Bool) (ls : List PLine) : Nat × List PLine :=
  if !isProt then (0, ls)
  else
    let removed := (ls.filter removed_line).length
    if 0 < removed then (removed, ls.filter keep_line) else (0, ls)

/-- True when every line of the file parses as a JSON record. -/
def all_valid (ls : List PLine) : Bool := ls.all valid_line

/-- The rewrite built by `IsolatedSessionManager.monitor_unification_attempts`
when it reaches its file rewrite: every line whose record is not a
unification attempt is kept. -/
def monitor_clean (ls : List PLine) : List PLine :=
  ls.filter fun l => match l with
    | .valid m => !is_unification_attempt m
    | _ => true

/-- Embeds one sweep of a protected file by
`IsolatedSessionManager.monitor_unification_attempts`
(`src/api/isolated_session_manager.py`, lines 250 to 295): the last line
is parsed (a blank or undecodable last line raises JSONDecodeError,
caught by the inner except, leaving the file alone); if its record is a
unification attempt the whole file is re-parsed line by line with no
per-line guard, so any blank or undecodable line raises before the file
is opened for writing and the file is left unchanged; only a fully
decodable file is rewritten to the kept lines. -/
def monitor_sweep (ls : List PLine) : List PLine :=
  match ls.getLast? with
  | none => ls
  | some .blank => ls
  | some (.invalid _) => ls
  | some (.valid m) =>
    if is_unification_attempt m then
      if all_valid ls then monitor_clean ls else ls
    else ls

/-- The file-system state that `SessionManager.get_session_file`,
`read_session` and `write_message` observe for one session id:
whether the projects base directory can be enumerated, and the lines of
the session file when one exists in some project directory. -/
structure FS where
  baseExists : Bool
  file : Option (List PLine)
deriving DecidableEq, Repr

/-- True when no exception escaped the modelled call. -/
def exc_ok {α : Type} : Except Unit α → Bool
  | .ok _ => true
  | .error _ => false

/-- Embeds `SessionManager.read_session`
(`src/api/session_manager.py`, lines 83 to 114).  `get_session_file` is
called before the try block and iterates the projects base directory,
so a missing base directory raises out of the function
(`Except.error ()`).  A session with no file returns the empty list; a
failing `open` is caught by the surrounding except and the empty list
accumulated so far is returned; otherwise the per-line loop runs. -/
def read_session (fs : FS) (isProt : Bool) (openFails : Bool) :
    Except Unit (List Msg) :=
  if !fs.baseExists then Except.error ()
  else
    match fs.file with
    | none => Except.ok []
    | some ls => if openFails then Except.ok [] else Except.ok (read_lines isProt ls)

/-- Embeds `SessionManager.write_message`
(`src/api/session_manager.py`, lines 116 to 152).  The unification block
for protected sessions runs first and returns False, touching nothing.
`get_session_file` and the `mkdir` for the default project run before
the try block, so a missing base directory or a failing `mkdir` raises
(`Except.error ()`).  A failing `open` or write inside the try block is
caught and the function returns False; a successful append adds the
record as one line at the end of the file.  (`Msg` carries only the
arbitration fields, so the timestamp the code may add is not part of the
model.) -/
def write_message (fs : FS) (isProt : Bool) (m : Msg) (mkdirFails openFails : Bool) :
    Except Unit (Bool × FS) :=
  if isProt && has_unified_marker m then Except.ok (false, fs)
  else if !fs.baseExists then Except.error ()
  else
    match fs.file with
    | none =>
      if mkdirFails then Except.error ()
      else if openFails then Except.ok (false, fs)
      else Except.ok (true, ⟨fs.baseExists, some [PLine.valid m]⟩)
    | some ls =>
      if openFails then Except.ok (false, fs)
      else Except.ok (true, ⟨fs.baseExists, some (ls ++ [PLine.valid m])⟩)

/-- Embeds `IsolatedSessionManager.write_message` together with the
blocking path of `process_message`
(`src/api/isolated_session_manager.py`, lines 91 to 136 and 193 to 218):
when `_is_unification_attempt` holds for the record and the target
session or the session named by `originalSession` is protected, the
write is blocked, returning False with the file untouched; otherwise the
processed record is appended.  (The metadata fields `process_message`
adds are outside the modelled four fields; the append is modelled as
succeeding.) -/
def iso_write_message (targetProt origProt : Bool) (m : Msg) (ls : List PLine) :
    Bool × List PLine :=
  if is_unification_attempt m && (targetProt || origProt) then (false, ls)
  else (true, ls ++ [PLine.valid m])

/-- State of `MonitorManager` relevant to `restart`
(`src/api/core/monitor_manager.py`): the restart counter, the time of
the last successful restart (seconds), the `status` entry of
`health_status`, and `is_running`. -/
structure MMState where
  restart_count : Nat
  last_restart_time : Option Nat
  health_status : String
  is_running : Bool
deriving DecidableEq, Repr

/-- `MonitorManager.max_restart_attempts`. -/
def max_restart_attempts : Nat := 5

/-- `MonitorManager.restart_cooldown`, in seconds. -/
def restart_cooldown : Nat := 30

/-- Result of one `restart` call: the returned boolean, the state after
the call, and whether `start` was invoked during the call. -/
structure RestartOutcome where
  ret : Bool
  st : MMState
  startCalled : Bool
deriving DecidableEq, Repr

/-- The cooldown test of `MonitorManager.restart`
(`src/api/core/monitor_manager.py`, lines 125 to 129): a last restart
time is recorded and fewer than `restart_cooldown` seconds have passed
since. -/
def cooldown_active (s : MMState) (now : Nat) : Bool :=
  match s.last_restart_time with
  | none => false
  | some t => now - t < restart_cooldown

/-- Embeds `MonitorManager.restart`
(`src/api/core/monitor_manager.py`, lines 121 to 158).  The cooldown
test runs first and returns False changing nothing.  Next the attempt
cap: when `restart_count` has reached `max_restart_attempts` the status
is set to `"failed"` and False is returned without stopping or starting
anything.  Otherwise the manager stops and starts the monitor
(`startOk` says whether `start` succeeds): on success the counter and
last restart time are advanced and the status is `"running"`; a failing
`start` leaves the counter alone with status `"error"`. -/
def MonitorManager_restart (s : MMState) (now : Nat) (startOk : Bool) : RestartOutcome :=
  if cooldown_active s now then ⟨false, s, false⟩
  else if max_restart_attempts ≤ s.restart_count then
    ⟨false, ⟨s.restart_count, s.last_restart_time, "failed", s.is_running⟩, false⟩
  else if startOk then
    ⟨true, ⟨s.restart_count + 1, some now, "running", true⟩, true⟩
  else
    ⟨false, ⟨s.restart_count, s.last_restart_time, "error", false⟩, true⟩

/-- A content block of an assistant message in a JSONL record, as
`JSONLMonitor.get_latest_messages` reads it. -/
structure JBlock where
  btype : Option String
  text : Option String

/-- The `content` value of a message: a plain string or a block list. -/
inductive JContent where
  | str : String → JContent
  | blocks : List JBlock → JContent

/-- The `message` object inside a JSONL record. -/
structure JMsg where
  role : Option String
  content : Option JContent

/-- A record of a project JSONL file as `get_latest_messages` reads it. -/
structure JRec where
  rtype : Option String
  message : Option JMsg
  timestamp : Option String

/-- One line of a project JSONL file. -/
inductive JLine where
  | blank : JLine
  | invalid : String → JLine
  | valid : JRec → JLine

/-- A JSONL file of a project directory with its modification time. -/
structure JFile where
  mtime : Nat
  lines : List JLine

/-- The state of a project directory under the projects root. -/
structure ProjectDir where
  dirExists : Bool
  files : List JFile

/-- A message in the frontend format `get_latest_messages` produces. -/
structure OutMsg where
  role : String
  content : JContent
  timestamp : Option String

/-- The per-record conversion of `JSONLMonitor.get_latest_messages`
(`src/api/core/jsonl_monitor.py`, lines 49 to 66): an assistant record
whose message content is a block list yields one assistant message per
text block; a user record whose message has role user yields one user
message with the raw content (default empty string). -/
def extract_rec (r : JRec) : List OutMsg :=
  match r.rtype, r.message with
  | some "assistant", some msg =>
    match msg.content with
    | some (JContent.blocks bs) =>
      (bs.filter fun b => b.btype == some "text").map
        fun b => ⟨"assistant", JContent.str (b.text.getD ""), r.timestamp⟩
    | _ => []
  | some "user", some msg =>
    if msg.role == some "user" then [⟨"user", msg.content.getD (JContent.str ""), r.timestamp⟩]
    else []
  | _, _ => []

/-- The line loop of `get_latest_messages`: blank lines are skipped and
`json.loads` is unguarded per line, so the first undecodable line raises
into the surrounding except, which returns the messages collected so
far. -/
def collect_lines : List JLine → List OutMsg
  | [] => []
  | JLine.blank :: ls => collect_lines ls
  | JLine.invalid _ :: _ => []
  | JLine.valid r :: ls => extract_rec r ++ collect_lines ls

/-- The file choice of `get_latest_messages`: the files are sorted by
modification time, newest first, with a stable sort, and the head is
taken, i.e. the first file among those of maximal modification time. -/
def select_latest (files : List JFile) : Option JFile :=
  files.foldl
    (fun acc f =>
      match acc with
      | none => some f
      | some g => if g.mtime < f.mtime then some f else acc)
    none

/-- Embeds `JSONLMonitor.get_latest_messages`
(`src/api/core/jsonl_monitor.py`, lines 19 to 70).  The `session_id`
parameter is kept to state the independence claim; the body, like the
Python code, never consults it. -/
def get_latest_messages (p : ProjectDir) (session_id : Option String) : List OutMsg :=
  if !p.dirExists then []
  else
    match select_latest p.files with
    | none => []
    | some f => collect_lines f.lines

/-- A file-system state whose projects base directory is missing. -/
def no_base_fs : FS := ⟨false, none⟩

/-- The first two elements of the marker list in
`IsolatedSessionManager._is_unification_attempt` are non-empty string
literals, hence truthy, so the function returns True on every record. -/
theorem is_unification_attempt_const (m : Msg) : is_unification_attempt m = true := rfl

/-- Claim C1: a record with none of the four heuristic markers should be
classified as native by both classifiers.  Evaluating the code at the
marker-free record shows `is_terminal_session` indeed returns false, but
`_is_unification_attempt` returns true: its marker list starts with two
non-empty string literals, so it classifies every record, marker-free
ones included, as a unification attempt. -/
theorem C1_marker_free_eval :
    is_unification_attempt empty_msg = true ∧ is_terminal_session empty_msg = false := by
  decide

/-- Claim C2: a record whose `originalSession` field is set (a truthy,
non-empty value, as the code tests it) is classified as foreign by both
classifiers, regardless of the values of all other fields:
`is_terminal_session` returns true from its first test, and
`_is_unification_attempt` returns true. -/
theorem C2_originalSession_foreign (m : Msg) (h : pyTruthy m.originalSession = true) :
    is_terminal_session m = true ∧ is_unification_attempt m = true := by
  refine ⟨?_, is_unification_attempt_const m⟩
  simp [is_terminal_session, h]

/-- Witness for C2 at a concrete record carrying `originalSession`. -/
theorem C2_witness :
    pyTruthy (Msg.originalSession ⟨some "4b5f9b35", none, some "web", some "abc"⟩) = true ∧
    is_terminal_session ⟨some "4b5f9b35", none, some "web", some "abc"⟩ = true ∧
    is_unification_attempt ⟨some "4b5f9b35", none, some "web", some "abc"⟩ = true := by
  refine ⟨by decide, ?_⟩
  exact C2_originalSession_foreign ⟨some "4b5f9b35", none, some "web", some "abc"⟩ (by decide)

/-- The per-line read loop keeps exactly the decoded records when the
session is not protected. -/
theorem read_lines_not_protected (ls : List PLine) :
    read_lines false ls = line_msgs ls := by
  induction ls with
  | nil => rfl
  | cons l ls ih => cases l <;> simp [read_lines, line_msgs, ih]

/-- `line_msgs` distributes over list append. -/
theorem line_msgs_append (l₁ l₂ : List PLine) :
    line_msgs (l₁ ++ l₂) = line_msgs l₁ ++ line_msgs l₂ := by
  induction l₁ with
  | nil => rfl
  | cons l ls ih => cases l <;> simp [line_msgs, ih]

/-- Claim C4: for a non-protected session whose file holds decodable
lines around one line that fails JSON decoding, `read_session` returns
exactly the decoded records of the valid lines, in file order, with the
failing line dropped; the decode failure is swallowed by the per-line
except, so no exception reaches the caller (the result is `Except.ok`).
-/
theorem C4_invalid_line_dropped (pre post : List PLine) (c : PLine)
    (hc : valid_line c = false) :
    read_session ⟨true, some (pre ++ c :: post)⟩ false false =
      Except.ok (line_msgs pre ++ line_msgs post) := by
  have hmid : read_lines false (pre ++ c :: post) = line_msgs pre ++ line_msgs post := by
    rw [read_lines_not_protected, line_msgs_append]
    cases c with
    | blank => simp [line_msgs]
    | invalid r => simp [line_msgs]
    | valid m => simp [valid_line] at hc
  simp [read_session, hmid]

/-- Witness for C4: a two-record file with one undecodable line in the
middle reads back as the two records in order. -/
theorem C4_witness :
    valid_line (PLine.invalid "not json") = false ∧
    read_session
        ⟨true, some [PLine.valid empty_msg, PLine.invalid "not json",
          PLine.valid ⟨none, none, some "web", none⟩]⟩ false false =
      Except.ok [empty_msg, ⟨none, none, some "web", none⟩] := by
  refine ⟨by decide, ?_⟩
  exact C4_invalid_line_dropped [PLine.valid empty_msg]
    [PLine.valid ⟨none, none, some "web", none⟩] (PLine.invalid "not json") (by decide)

/-- Claim C5: on a protected session file in which every line decodes
(M native lines and K foreign lines, no concurrent writer),
`clean_unified_messages` returns the number K of lines carrying a truthy
`originalSession` or `unified_at` and leaves the file holding exactly
the M native lines, in their original relative order. -/
theorem C5_sweep_removes_foreign (ls : List PLine)
    (hv : ∀ l ∈ ls, valid_line l = true) :
    clean_unified_messages true ls = ((ls.filter removed_line).length, ls.filter keep_line) := by
  unfold clean_unified_messages
  by_cases h : 0 < (ls.filter removed_line).length
  · simp [h]
  · have h0 : (ls.filter removed_line).length = 0 := Nat.eq_zero_of_not_pos h
    have hnil : ls.filter removed_line = [] := List.length_eq_zero.mp h0
    have hall : ∀ l ∈ ls, removed_line l = false := by
      intro l hl
      have hx := List.filter_eq_nil_iff.mp hnil l hl
      simpa using hx
    have hkeep : ls.filter keep_line = ls := by
      apply List.filter_eq_self.mpr
      intro l hl
      cases l with
      | blank =>
        have hb := hv _ hl
        simp [valid_line] at hb
      | invalid r => simp [keep_line]
      | valid m =>
        have hm := hall _ hl
        simp only [removed_line] at hm
        simp [keep_line, hm]
    simp [h, h0, hkeep]

/-- Witness for C5: a three-line file with one foreign line in the
middle is swept to the two native lines and the sweep returns 1. -/
theorem C5_witness :
    (∀ l ∈ [PLine.valid empty_msg, PLine.valid ⟨none, some "t1", none, none⟩,
        PLine.valid ⟨none, none, some "web", none⟩], valid_line l = true) ∧
    clean_unified_messages true
        [PLine.valid empty_msg, PLine.valid ⟨none, some "t1", none, none⟩,
         PLine.valid ⟨none, none, some "web", none⟩] =
      (1, [PLine.valid empty_msg, PLine.valid ⟨none, none, some "web", none⟩]) := by
  refine ⟨by decide, ?_⟩
  exact (C5_sweep_removes_foreign
    [PLine.valid empty_msg, PLine.valid ⟨none, some "t1", none, none⟩,
     PLine.valid ⟨none, none, some "web", none⟩] (by decide)).trans (by decide)

/-- Claim C6: a session file holding an undecodable line survives both
sweep operations with that line preserved verbatim, and neither sweep
raises: `monitor_unification_attempts` aborts its rewrite on the decode
error (leaving the whole file unchanged), and `clean_unified_messages`
keeps the raw line through its per-line except branch. -/
theorem C6_malformed_line_preserved (ls : List PLine) (raw : String) (isProt : Bool)
    (h : PLine.invalid raw ∈ ls) :
    monitor_sweep ls = ls ∧ PLine.invalid raw ∈ (clean_unified_messages isProt ls).2 := by
  constructor
  · have hav : all_valid ls = false := by
      cases hav : all_valid ls with
      | false => rfl
      | true =>
        exfalso
        have hx := (List.all_eq_true.mp hav) _ h
        simp [valid_line] at hx
    cases hgl : ls.getLast? with
    | none => simp [monitor_sweep, hgl]
    | some l =>
      cases l with
      | blank => simp [monitor_sweep, hgl]
      | invalid r => simp [monitor_sweep, hgl]
      | valid m => simp [monitor_sweep, hgl, is_unification_attempt_const, hav]
  · cases isProt with
    | false => simpa [clean_unified_messages] using h
    | true =>
      by_cases hr : 0 < (ls.filter removed_line).length
      · have hmem : PLine.invalid raw ∈ ls.filter keep_line :=
          List.mem_filter.mpr ⟨h, by simp [keep_line]⟩
        simpa [clean_unified_messages, hr] using hmem
      · simpa [clean_unified_messages, hr] using h

/-- Witness for C6: a file ending in an undecodable line passes through
both sweeps with the malformed line intact. -/
theorem C6_witness :
    PLine.invalid "oops" ∈ [PLine.valid empty_msg, PLine.invalid "oops"] ∧
    monitor_sweep [PLine.valid empty_msg, PLine.invalid "oops"] =
      [PLine.valid empty_msg, PLine.invalid "oops"] ∧
    PLine.invalid "oops" ∈
      (clean_unified_messages true [PLine.valid empty_msg, PLine.invalid "oops"]).2 := by
  refine ⟨by decide, ?_⟩
  exact C6_malformed_line_preserved
    [PLine.valid empty_msg, PLine.invalid "oops"] "oops" true (by decide)

/-- Claim C9: on a protected session file with no line carrying a truthy
`originalSession` or `unified_at`, `clean_unified_messages` returns 0
and performs no write: the resulting file is line for line the input
file, malformed and blank lines included, because the rewrite branch is
guarded by a positive `removed_count`. -/
theorem C9_no_foreign_no_write (ls : List PLine)
    (h : ∀ l ∈ ls, removed_line l = false) :
    clean_unified_messages true ls = (0, ls) := by
  have hnil : ls.filter removed_line = [] :=
    List.filter_eq_nil_iff.mpr (fun l hl => by simp [h l hl])
  simp [clean_unified_messages, hnil]

/-- Witness for C9: a file with one native record, one malformed line
and one blank line is returned unchanged with count 0. -/
theorem C9_witness :
    (∀ l ∈ [PLine.valid empty_msg, PLine.invalid "x", PLine.blank],
        removed_line l = false) ∧
    clean_unified_messages true [PLine.valid empty_msg, PLine.invalid "x", PLine.blank] =
      (0, [PLine.valid empty_msg, PLine.invalid "x", PLine.blank]) := by
  refine ⟨by decide, ?_⟩
  exact C9_no_foreign_no_write
    [PLine.valid empty_msg, PLine.invalid "x", PLine.blank] (by decide)

/-- Claim C7: for a protected session, a message carrying a truthy
`originalSession` or `unified_at` is rejected by both write paths:
`SessionManager.write_message` returns False before touching the file,
and `IsolatedSessionManager.write_message` is blocked by
`process_message`, returning False with the file untouched. -/
theorem C7_protected_write_blocked (fs : FS) (m : Msg) (mkF opF : Bool)
    (lsI : List PLine) (origProt : Bool)
    (h : has_unified_marker m = true) :
    write_message fs true m mkF opF = Except.ok (false, fs) ∧
    iso_write_message true origProt m lsI = (false, lsI) := by
  constructor
  · simp [write_message, h]
  · simp [iso_write_message, is_unification_attempt_const]

/-- Witness for C7: a concrete unified record aimed at a protected
session is rejected by both writers and both files stay unchanged. -/
theorem C7_witness :
    has_unified_marker ⟨some "orig", none, none, none⟩ = true ∧
    write_message ⟨true, some []⟩ true ⟨some "orig", none, none, none⟩ false false =
      Except.ok (false, ⟨true, some []⟩) ∧
    iso_write_message true false ⟨some "orig", none, none, none⟩ [] = (false, []) := by
  refine ⟨by decide, ?_⟩
  exact C7_protected_write_blocked ⟨true, some []⟩ ⟨some "orig", none, none, none⟩
    false false [] false (by decide)

/-- Claim C8, counterexample: when the projects base directory is
missing, both `read_session` and `write_message` reach the directory
iteration of `get_session_file` outside their try blocks, so the
exception propagates to the caller instead of being swallowed. -/
theorem C8_missing_basedir_raises :
    read_session no_base_fs false false = Except.error () ∧
    write_message no_base_fs false empty_msg false false = Except.error () :=
  ⟨rfl, rfl⟩

/-- Claim C8 as amended: provided the projects base directory can be
enumerated (and, for a write that must create the session file, the
`mkdir` succeeds), no exception reaches the caller: a failing `open` or
read of the session file makes `read_session` return the empty list,
and a failing `open` or append makes `write_message` return False. -/
theorem C8_io_errors_swallowed (fs : FS) (isProt : Bool) (m : Msg) (mkF opF : Bool)
    (hbase : fs.baseExists = true) (hmk : fs.file = none → mkF = false) :
    exc_ok (read_session fs isProt opF) = true ∧
    (opF = true → read_session fs isProt opF = Except.ok []) ∧
    exc_ok (write_message fs isProt m mkF opF) = true ∧
    (opF = true → write_message fs isProt m mkF opF = Except.ok (false, fs)) := by
  obtain ⟨b, f⟩ := fs
  simp only at hbase
  subst hbase
  refine ⟨?_, ?_, ?_, ?_⟩
  · cases f <;> cases opF <;> simp [read_session, exc_ok]
  · intro ho; subst ho; cases f <;> simp [read_session]
  · by_cases hb : (isProt && has_unified_marker m) = true
    · simp [write_message, hb, exc_ok]
    · cases f with
      | none =>
        have hm0 : mkF = false := hmk rfl
        subst hm0
        cases opF <;> simp [write_message, hb, exc_ok]
      | some ls => cases opF <;> simp [write_message, hb, exc_ok]
  · intro ho; subst ho
    by_cases hb : (isProt && has_unified_marker m) = true
    · simp [write_message, hb]
    · cases f with
      | none =>
        have hm0 : mkF = false := hmk rfl
        subst hm0
        simp [write_message, hb]
      | some ls => simp [write_message, hb]

/-- Witness for C8: with the base directory present and an existing
session file, a failing `open` yields an empty read result and a False
write result, with no exception. -/
theorem C8_witness :
    exc_ok (read_session ⟨true, some []⟩ false true) = true ∧
    read_session ⟨true, some []⟩ false true = Except.ok [] ∧
    exc_ok (write_message ⟨true, some []⟩ false empty_msg false true) = true ∧
    write_message ⟨true, some []⟩ false empty_msg false true =
      Except.ok (false, ⟨true, some []⟩) := by
  have h := C8_io_errors_swallowed ⟨true, some []⟩ false empty_msg false true rfl
    (fun _ => rfl)
  exact ⟨h.1, h.2.1 rfl, h.2.2.1, h.2.2.2 rfl⟩

/-- Claim C3, counterexample: with the restart counter already at the
cap of 5, a restart call arriving 10 seconds after the last restart hits
the cooldown test first: it returns False without starting anything, but
the health status is left at `"running"` instead of being set to
`"failed"`, contradicting the claim that every such call sets the status
to `"failed"`. -/
theorem C3_cooldown_cex :
    (MonitorManager_restart ⟨5, some 100, "running", true⟩ 110 true).ret = false ∧
    (MonitorManager_restart ⟨5, some 100, "running", true⟩ 110 true).startCalled = false ∧
    (MonitorManager_restart ⟨5, some 100, "running", true⟩ 110 true).st.health_status =
      "running" :=
  ⟨rfl, rfl, rfl⟩

/-- Claim C3 as amended: once `restart_count` has reached
`max_restart_attempts` (5), every restart call returns False without
invoking `start` and leaves the counter unchanged, so the manager never
restarts the monitor again; a call outside the cooldown window also sets
the health status to `"failed"` (a call within the cooldown returns
False leaving the status untouched). -/
theorem C3_restart_cap (s : MMState) (now : Nat) (startOk : Bool)
    (h : max_restart_attempts ≤ s.restart_count) :
    (MonitorManager_restart s now startOk).ret = false ∧
    (MonitorManager_restart s now startOk).startCalled = false ∧
    (MonitorManager_restart s now startOk).st.restart_count = s.restart_count ∧
    (cooldown_active s now = false →
      (MonitorManager_restart s now startOk).st.health_status = "failed") := by
  by_cases hc : cooldown_active s now = true
  · simp [MonitorManager_restart, hc]
  · have hc2 : cooldown_active s now = false := by
      cases hx : cooldown_active s now
      · rfl
      · exact absurd hx hc
    simp [MonitorManager_restart, hc2, h]

/-- Witness for C3: a manager state with 5 recorded restarts and no
recent restart refuses the call, leaves the counter at 5 and reports
status failed. -/
theorem C3_witness :
    max_restart_attempts ≤ 5 ∧
    (MonitorManager_restart ⟨5, none, "running", true⟩ 0 true).ret = false ∧
    (MonitorManager_restart ⟨5, none, "running", true⟩ 0 true).startCalled = false ∧
    (MonitorManager_restart ⟨5, none, "running", true⟩ 0 true).st.restart_count = 5 ∧
    (MonitorManager_restart ⟨5, none, "running", true⟩ 0 true).st.health_status = "failed" := by
  have h := C3_restart_cap ⟨5, none, "running", true⟩ 0 true (by decide)
  exact ⟨by decide, h.1, h.2.1, h.2.2.1, h.2.2.2 rfl⟩

/-- Claim C10: the result of `JSONLMonitor.get_latest_messages` does not
depend on its `session_id` argument: for a fixed project directory
state, any two session ids (absent one included) give the same message
list, computed from the most recently modified JSONL file only. -/
theorem C10_session_id_independent (p : ProjectDir) (s1 s2 : Option String) :
    get_latest_messages p s1 = get_latest_messages p s2 := rfl
